import Mathlib

/-!
Formal model of the offline-first attendance synchronization subsystem of the
Rural School Portal repository.

Shallow embedding of:
- `client/src/lib/pdf-export.ts`, class `OfflineStorage` (IndexedDB-backed
  offline store: `storeAttendanceRecord`, `getPendingAttendanceRecords`,
  `markRecordSynced`, `cacheStudents`, `syncWithServer`);
- the service worker (unnamed source part 000): `handleApiRequest`,
  `syncAttendanceData`, `getPendingAttendanceRecords`, `markRecordSynced`;
- `server/routes.ts` (`POST /api/attendance/mark`, `GET /api/students`) and
  `server/storage.ts` (`MemStorage.createAttendance`) together with the
  drizzle/zod schema of the shared schema file.

Modelling conventions:
- IndexedDB object stores are modelled as lists of records; `IDBObjectStore.add`
  fails on a duplicate primary key, `put` upserts, and `index.getAll` returns
  matching records in primary-key order (code-unit lexicographic on strings).
- `Date.now()` readings and random id suffixes are passed in as explicit
  arguments, so the nondeterministic environment is a parameter of each
  operation.
- Network calls are modelled by explicit result values (`FetchResult`,
  `Option Response`) supplied by the caller; a `fetch` that throws is
  distinguished from a non-2xx HTTP response.
- TypeScript string fields are modelled as `Option String` where the run-time
  value can be absent (`undefined`), since the TS type annotations are not
  checked at run time and the functions under study perform no run-time
  validation of their own.
- The `this.db === null` ("Database not initialized") guard and the
  `localStorage` last-sync bookkeeping are orthogonal to every property
  studied here and are left outside the state that the operations transform.
-/

namespace RularSchoolPortal

/-! ### IndexedDB string key order (code-unit lexicographic) -/

/-- Lexicographic strict comparison of char lists by code unit, the order
IndexedDB uses for string primary keys. -/
def charsLtB : List Char → List Char → Bool
  | [], [] => false
  | [], _ :: _ => true
  | _ :: _, [] => false
  | a :: as, b :: bs =>
    if a.toNat < b.toNat then true
    else if b.toNat < a.toNat then false
    else charsLtB as bs

/-- Strict IndexedDB order on string keys. -/
def strLtB (a b : String) : Bool := charsLtB a.toList b.toList

/-! ### Client-side data model (`pdf-export.ts`) -/

/-- `interface OfflineAttendanceRecord` from `pdf-export.ts`.  `subject` and
`period` are optional in TS; the other string fields are `Option String`
because nothing checks their presence at run time. -/
structure OfflineAttendanceRecord where
  id : String
  studentId : Option String
  teacherId : Option String
  class_ : Option String
  subject : Option String
  period : Option String
  status : Option String
  method : Option String
  date : Option String
  timestamp : Nat
  synced : Bool
deriving Repr, DecidableEq

/-- The argument of `storeAttendanceRecord`:
`Omit<OfflineAttendanceRecord, 'id' | 'timestamp' | 'synced'>`. -/
structure RecordInput where
  studentId : Option String
  teacherId : Option String
  class_ : Option String
  subject : Option String
  period : Option String
  status : Option String
  method : Option String
  date : Option String
deriving Repr, DecidableEq

/-- `interface OfflineStudent`; `cacheStudents` stamps `lastUpdated` before
writing, so the stored shape carries it. -/
structure OfflineStudent where
  id : String
  rollNumber : String
  fullName : String
  class_ : String
  photoUrl : Option String
  rfidCardId : Option String
  lastUpdated : Nat
deriving Repr, DecidableEq

/-- The two IndexedDB object stores of `AttendanceSystemDB` that the studied
operations touch (`attendanceRecords` keyed by `id`, `studentsCache` keyed by
`id` with a unique index on `rollNumber`). -/
structure OfflineDB where
  attendanceRecords : List OfflineAttendanceRecord
  studentsCache : List OfflineStudent
deriving Repr, DecidableEq

/-- Errors surfaced by the IndexedDB request callbacks that the studied code
can propagate as promise rejections. -/
inductive SyncError where
  | constraintError
  | recordNotFound
deriving Repr, DecidableEq

/-- `OfflineStorage.generateId`:
`'offline_' + Date.now() + '_' + Math.random().toString(36).substr(2, 9)`.
The clock reading and the random suffix are explicit arguments. -/
def generateId (idTime : Nat) (rand : String) : String :=
  "offline_" ++ toString idTime ++ "_" ++ rand

/-- Does the `attendanceRecords` store hold a record with this primary key? -/
def hasRecordId (db : OfflineDB) (rid : String) : Bool :=
  db.attendanceRecords.any (fun r => r.id == rid)

/-- The record `storeAttendanceRecord` builds: the input spread together with
fresh `id`, `timestamp := Date.now()`, `synced := false`. -/
def mkOfflineRecord (input : RecordInput) (idTime : Nat) (rand : String)
    (now : Nat) : OfflineAttendanceRecord :=
  { id := generateId idTime rand
    studentId := input.studentId
    teacherId := input.teacherId
    class_ := input.class_
    subject := input.subject
    period := input.period
    status := input.status
    method := input.method
    date := input.date
    timestamp := now
    synced := false }

/-- `OfflineStorage.storeAttendanceRecord`: build the record and `store.add`
it; `add` rejects with a `ConstraintError` when the key already exists and
otherwise inserts; on success the promise resolves with the fresh id.  No
field of the input is inspected. -/
def storeAttendanceRecord (db : OfflineDB) (input : RecordInput)
    (idTime : Nat) (rand : String) (now : Nat) :
    Except SyncError (OfflineDB × String) :=
  let offlineRecord := mkOfflineRecord input idTime rand now
  if hasRecordId db offlineRecord.id then
    .error .constraintError
  else
    .ok ({ db with
            attendanceRecords := db.attendanceRecords ++ [offlineRecord] },
         offlineRecord.id)

/-- The `get`-then-`put` body shared by both `markRecordSynced`
implementations: set `synced := true` on the record with the given key
(`put` replaces in place, keyed by `id`). -/
def setSyncedTrue (rid : String) (l : List OfflineAttendanceRecord) :
    List OfflineAttendanceRecord :=
  l.map (fun r => if r.id == rid then { r with synced := true } else r)

/-- `OfflineStorage.markRecordSynced`: `get(recordId)`; when found, set
`synced = true` and `put` it back; when absent, reject with
`Error('Record not found')`. -/
def markRecordSynced (db : OfflineDB) (recordId : String) :
    Except SyncError OfflineDB :=
  if hasRecordId db recordId then
    .ok { db with attendanceRecords := setSyncedTrue recordId db.attendanceRecords }
  else
    .error .recordNotFound

/-- The service worker's `markRecordSynced`: identical `get`-then-`put`
update, except that a missing record resolves successfully
(`resolve(); // Record not found, consider it synced`). -/
def swMarkRecordSynced (db : OfflineDB) (recordId : String) : OfflineDB :=
  { db with attendanceRecords := setSyncedTrue recordId db.attendanceRecords }

/-- Order in which `index('synced').getAll(...)` yields records: all the
matching records carry the same index key, so they arrive in primary-key
(string id) order. -/
def recIdLe (a b : OfflineAttendanceRecord) : Prop :=
  strLtB b.id a.id = false

instance : DecidableRel recIdLe := fun a b => by
  unfold recIdLe; exact inferInstance

/-- `OfflineStorage.getPendingAttendanceRecords`:
`index('synced').getAll(IDBKeyRange.only(false))` — the unsynced records, in
primary-key order. -/
def getPendingAttendanceRecords (db : OfflineDB) :
    List OfflineAttendanceRecord :=
  List.insertionSort recIdLe
    (db.attendanceRecords.filter (fun r => !r.synced))

/-- The service worker's `getPendingAttendanceRecords`:
`index('synced').getAll(false)` on the same database — the same view. -/
def swGetPendingAttendanceRecords (db : OfflineDB) :
    List OfflineAttendanceRecord :=
  List.insertionSort recIdLe
    (db.attendanceRecords.filter (fun r => !r.synced))

/-! ### Sync reconciliation (`syncWithServer` and the service worker's
`syncAttendanceData`) -/

/-- The body `syncWithServer` posts for a record: the spread
`{studentId, class, subject, period, status, method, date}` — note that
neither `id`, `timestamp` nor `synced` is included. -/
structure ApiRecord where
  studentId : Option String
  class_ : Option String
  subject : Option String
  period : Option String
  status : Option String
  method : Option String
  date : Option String
deriving Repr, DecidableEq

/-- `syncWithServer`'s conversion of an offline record to API format. -/
def toApiRecord (r : OfflineAttendanceRecord) : ApiRecord :=
  { studentId := r.studentId
    class_ := r.class_
    subject := r.subject
    period := r.period
    status := r.status
    method := r.method
    date := r.date }

/-- Outcome of one `fetch('/api/attendance/mark', ...)`: a 2xx response, a
non-2xx response (`response.ok` false), or a thrown network error. -/
inductive FetchResult where
  | ok
  | httpError
  | networkError
deriving Repr, DecidableEq

/-- What one sync iteration serializes as the one-element request array:
`OfflineStorage.syncWithServer` posts the projected `apiRecord`, the service
worker posts the stored record verbatim (id, timestamp and synced flag
included). -/
inductive Payload where
  | apiProjection (r : ApiRecord)
  | fullRecord (r : OfflineAttendanceRecord)
deriving Repr, DecidableEq

/-- Does a serialized payload contain the record's client-generated id? -/
def payloadCarriesId : Payload → String → Bool
  | .apiProjection _, _ => false
  | .fullRecord r, rid => r.id == rid

/-- Result of a `syncWithServer` pass: the database afterwards, the returned
`{success, failed}` counters, and the trace of attempted submissions with
their outcomes (a `networkError` entry never produced a server response). -/
structure SyncOutcome where
  db : OfflineDB
  success : Nat
  failed : Nat
  sent : List (Payload × FetchResult)
deriving Repr, DecidableEq

/-- The `for (const record of pendingRecords)` loop of
`OfflineStorage.syncWithServer`.  `responses k` is the outcome of the `k`-th
fetch.  A 2xx response leads to `markRecordSynced`; a rejection of that
promise is caught by the surrounding `try` and counted as a failure.  Non-2xx
responses and thrown fetches count as failures and leave the store alone. -/
def syncLoop (responses : Nat → FetchResult) :
    List OfflineAttendanceRecord → Nat → OfflineDB → SyncOutcome
  | [], _, db => ⟨db, 0, 0, []⟩
  | r :: rs, k, db =>
    match responses k with
    | .ok =>
      match markRecordSynced db r.id with
      | .ok db' =>
        let o := syncLoop responses rs (k + 1) db'
        ⟨o.db, o.success + 1, o.failed, (.apiProjection (toApiRecord r), .ok) :: o.sent⟩
      | .error _ =>
        let o := syncLoop responses rs (k + 1) db
        ⟨o.db, o.success, o.failed + 1, (.apiProjection (toApiRecord r), .ok) :: o.sent⟩
    | .httpError =>
      let o := syncLoop responses rs (k + 1) db
      ⟨o.db, o.success, o.failed + 1, (.apiProjection (toApiRecord r), .httpError) :: o.sent⟩
    | .networkError =>
      let o := syncLoop responses rs (k + 1) db
      ⟨o.db, o.success, o.failed + 1, (.apiProjection (toApiRecord r), .networkError) :: o.sent⟩

/-- `OfflineStorage.syncWithServer`: read the pending view once, then drive
the loop.  (The `localStorage` last-sync stamp updated when `success > 0` is
not part of the modelled state.) -/
def syncWithServer (db : OfflineDB) (responses : Nat → FetchResult) :
    SyncOutcome :=
  syncLoop responses (getPendingAttendanceRecords db) 0 db

/-- Result of the service worker's `syncAttendanceData`: the database
afterwards, the trace of attempted submissions, and the count it reports in
its `SYNC_COMPLETE` message (`synced: pendingRecords.length`, regardless of
outcomes). -/
structure SWSyncOutcome where
  db : OfflineDB
  sent : List (Payload × FetchResult)
  reportedSynced : Nat
deriving Repr, DecidableEq

/-- The `for (const record of pendingRecords)` loop of the service worker's
`syncAttendanceData`: it posts the stored record verbatim, marks on 2xx via
its own `markRecordSynced` (which tolerates a missing record), and does
nothing at all on a non-2xx response or a thrown fetch. -/
def swSyncLoop (responses : Nat → FetchResult) :
    List OfflineAttendanceRecord → Nat → OfflineDB →
    OfflineDB × List (Payload × FetchResult)
  | [], _, db => (db, [])
  | r :: rs, k, db =>
    match responses k with
    | .ok =>
      let db' := swMarkRecordSynced db r.id
      let o := swSyncLoop responses rs (k + 1) db'
      (o.1, (.fullRecord r, .ok) :: o.2)
    | .httpError =>
      let o := swSyncLoop responses rs (k + 1) db
      (o.1, (.fullRecord r, .httpError) :: o.2)
    | .networkError =>
      let o := swSyncLoop responses rs (k + 1) db
      (o.1, (.fullRecord r, .networkError) :: o.2)

/-- The service worker's `syncAttendanceData`. -/
def syncAttendanceData (db : OfflineDB) (responses : Nat → FetchResult) :
    SWSyncOutcome :=
  let pendingRecords := swGetPendingAttendanceRecords db
  let o := swSyncLoop responses pendingRecords 0 db
  ⟨o.1, o.2, pendingRecords.length⟩

/-- A sequence of `storeAttendanceRecord` calls (each with its own clock
reading and random suffix); a rejected call leaves the store untouched, as a
failed IndexedDB `add` does. -/
def enqueueAll (db : OfflineDB) :
    List (RecordInput × Nat × String × Nat) → OfflineDB
  | [] => db
  | (input, idTime, rand, now) :: rest =>
    match storeAttendanceRecord db input idTime rand now with
    | .ok (db', _) => enqueueAll db' rest
    | .error _ => enqueueAll db rest

/-- `n` consecutive `syncWithServer` passes against a server that never
responds (every fetch throws). -/
def iterateSyncAllFail : Nat → OfflineDB → OfflineDB
  | 0, db => db
  | n + 1, db =>
    iterateSyncAllFail n (syncWithServer db (fun _ => .networkError)).db

/-! ### Server model (`server/routes.ts`, `server/storage.ts`, shared schema) -/

/-- A row of the `students` table, restricted to the columns the embedded
handlers inspect (`getAllStudents` filters on `isActive`; the students route
filters on `class`, `fullName`, `rollNumber`).  The remaining nullable
profile columns are never read by the code under study. -/
structure Student where
  id : String
  rollNumber : String
  fullName : String
  class_ : String
  isActive : Bool
deriving Repr, DecidableEq

/-- One element of the JSON array posted to `/api/attendance/mark`, before
validation: every property may be absent. -/
structure InsertAttendance where
  studentId : Option String
  class_ : Option String
  subject : Option String
  date : Option String
  period : Option String
  status : Option String
  method : Option String
deriving Repr, DecidableEq

/-- A row of the `attendance` table (`markedAt` as an abstract clock
reading). -/
structure Attendance where
  id : String
  studentId : String
  teacherId : String
  class_ : String
  subject : Option String
  date : String
  period : Option String
  status : String
  method : String
  markedAt : Nat
deriving Repr, DecidableEq

/-- The data `insertAttendanceSchema.parse` accepted (all required columns
present). -/
structure ValidAttendance where
  studentId : String
  teacherId : String
  class_ : String
  subject : Option String
  date : String
  period : Option String
  status : String
  method : String
deriving Repr, DecidableEq

/-- `MemStorage`'s attendance `Map`, as an insertion-ordered association
list. -/
structure ServerState where
  attendance : List Attendance
deriving Repr, DecidableEq

/-- JS `Map.set`: replace in place when the key exists, append otherwise. -/
def mapSet (l : List Attendance) (att : Attendance) : List Attendance :=
  if l.any (fun a => a.id == att.id) then
    l.map (fun a => if a.id == att.id then att else a)
  else
    l ++ [att]

/-- The row `createAttendance` spreads together: the validated data under a
fresh id, stamped `markedAt`. -/
def attendanceRow (uuid : String) (v : ValidAttendance) (now : Nat) :
    Attendance :=
  { id := uuid
    studentId := v.studentId
    teacherId := v.teacherId
    class_ := v.class_
    subject := v.subject
    date := v.date
    period := v.period
    status := v.status
    method := v.method
    markedAt := now }

/-- `MemStorage.createAttendance`: always build a row under a fresh
`randomUUID()` (passed in explicitly) and `Map.set` it; nothing is looked up
first, so every call adds a row when the UUID is fresh. -/
def createAttendance (st : ServerState) (uuid : String) (v : ValidAttendance)
    (now : Nat) : ServerState × Attendance :=
  ({ attendance := mapSet st.attendance (attendanceRow uuid v now) },
   attendanceRow uuid v now)

/-- `insertAttendanceSchema.parse({...data, teacherId: req.user!.id,
date: data.date || today})`: the route injects the acting user and defaults a
missing (or empty — `||` is truthiness) date, then zod requires
`studentId`, `class`, `status` and `method` to be present strings; `subject`
and `period` stay optional. -/
def parseInsertAttendance (teacherId : String) (today : String)
    (d : InsertAttendance) : Option ValidAttendance :=
  let date :=
    match d.date with
    | some s => if s == "" then today else s
    | none => today
  match d.studentId, d.class_, d.status, d.method with
  | some sid, some cls, some st, some m =>
    some { studentId := sid, teacherId := teacherId, class_ := cls,
           subject := d.subject, date := date, period := d.period,
           status := st, method := m }
  | _, _, _, _ => none

/-- An HTTP reply carrying a status code and, on success, a JSON body. -/
structure HttpReply (α : Type) where
  status : Nat
  body : Option α
deriving Repr, DecidableEq

/-- The `for (const data of attendanceData)` loop of the mark route: records
created before a zod failure stay created (the thrown `ZodError` aborts the
loop and yields the 400 reply). -/
def markAttendanceLoop (teacherId today : String) (uuids : Nat → String)
    (now : Nat) :
    List InsertAttendance → Nat → ServerState →
    ServerState × Option (List Attendance)
  | [], _, st => (st, some [])
  | d :: ds, k, st =>
    match parseInsertAttendance teacherId today d with
    | none => (st, none)
    | some v =>
      let (st', att) := createAttendance st (uuids k) v now
      match markAttendanceLoop teacherId today uuids now ds (k + 1) st' with
      | (st'', none) => (st'', none)
      | (st'', some results) => (st'', some (att :: results))

/-- `POST /api/attendance/mark`: reject with 401 unless
`req.isAuthenticated()`; otherwise process every element of the body array
(`auth` carries the authenticated teacher's id), answering 201 with the
created rows or 400 when validation throws. -/
def markAttendanceRoute (st : ServerState) (auth : Option String)
    (body : List InsertAttendance) (uuids : Nat → String) (today : String)
    (now : Nat) : ServerState × HttpReply (List Attendance) :=
  match auth with
  | none => (st, { status := 401, body := none })
  | some teacherId =>
    match markAttendanceLoop teacherId today uuids now body 0 st with
    | (st', some results) => (st', { status := 201, body := some results })
    | (st', none) => (st', { status := 400, body := none })

/-- JS `String.prototype.toLowerCase` on the ASCII identifiers at play. -/
def lowerStr (s : String) : String := String.mk (s.toList.map Char.toLower)

/-- `needle` begins `hay`? (helper for substring containment). -/
def charsBeginWith : List Char → List Char → Bool
  | [], _ => true
  | _ :: _, [] => false
  | a :: as, b :: bs => a == b && charsBeginWith as bs

/-- JS `String.prototype.includes`. -/
def charsHaveSub (needle : List Char) : List Char → Bool
  | [] => needle.isEmpty
  | b :: bs => charsBeginWith needle (b :: bs) || charsHaveSub needle bs

/-- JS `a.includes(b)` lifted to the model's strings. -/
def strHasSub (hay needle : String) : Bool :=
  charsHaveSub needle.toList hay.toList

/-- `GET /api/students`: *no* session check — the handler never looks at
`auth`.  `getAllStudents()` keeps the active rows, then the truthy `class`
and `search` query parameters filter, and the result is served with 200. -/
def getStudentsRoute (students : List Student) (auth : Option String)
    (classFilter search : Option String) : HttpReply (List Student) :=
  let active := students.filter (fun s => s.isActive)
  let byClass :=
    match classFilter with
    | some c => if c == "" then active else active.filter (fun s => s.class_ == c)
    | none => active
  let bySearch :=
    match search with
    | some q =>
      if q == "" then byClass
      else
        let searchTerm := lowerStr q
        byClass.filter (fun s =>
          strHasSub (lowerStr s.fullName) searchTerm ||
          strHasSub (lowerStr s.rollNumber) searchTerm)
    | none => byClass
  { status := 200, body := some bySearch }

/-! ### Service worker Reference Cache (`handleApiRequest`) and
`OfflineStorage.cacheStudents` -/

/-- An HTTP response as the service worker sees it (status plus body). -/
structure SWResponse where
  status : Nat
  body : String
deriving Repr, DecidableEq

/-- `Response.ok`: status in the 2xx range. -/
def respOk (r : SWResponse) : Bool := 200 ≤ r.status && r.status < 300

/-- The API prefixes the service worker caches for offline use. -/
def OFFLINE_APIS : List String :=
  ["/api/user", "/api/students", "/api/classes", "/api/attendance/stats"]

/-- `OFFLINE_APIS.some(api => url.pathname.startsWith(api))`. -/
def isOfflineApi (pathname : String) : Bool :=
  OFFLINE_APIS.any (fun api => charsBeginWith api.toList pathname.toList)

/-- The dynamic cache: request URL to stored response. -/
abbrev SWCache : Type := List (String × SWResponse)

/-- `caches.match(request)`. -/
def cacheMatch (cache : SWCache) (pathname : String) : Option SWResponse :=
  match cache.find? (fun e => e.1 == pathname) with
  | some e => some e.2
  | none => none

/-- `cache.put(request, response)`: overwrite the entry for this request. -/
def cachePut (cache : SWCache) (pathname : String) (resp : SWResponse) :
    SWCache :=
  if cache.any (fun e => e.1 == pathname) then
    cache.map (fun e => if e.1 == pathname then (pathname, resp) else e)
  else
    cache ++ [(pathname, resp)]

/-- The 503 `{error: 'Offline', ...}` reply `handleApiRequest` fabricates
when both the network and the cache come up empty. -/
def offlineResponse : SWResponse :=
  { status := 503
    body := "\x7b\"error\":\"Offline\",\"message\":\"This feature is not available offline\"\x7d" }

/-- The service worker's `handleApiRequest`, network-first: when `fetch`
returns (`net = some resp`), cache it if it is 2xx on an offline-enabled API
and serve it; when `fetch` throws (`net = none`), serve the cached response
if any, else the fabricated 503 offline reply. -/
def handleApiRequest (cache : SWCache) (pathname : String)
    (net : Option SWResponse) : SWCache × SWResponse :=
  match net with
  | some networkResponse =>
    if respOk networkResponse && isOfflineApi pathname then
      (cachePut cache pathname networkResponse, networkResponse)
    else
      (cache, networkResponse)
  | none =>
    match cacheMatch cache pathname with
    | some cachedResponse => (cache, cachedResponse)
    | none => (cache, offlineResponse)

/-- `n` consecutive reads of the same API while every fetch throws; yields
the served responses in order. -/
def offlineReads (cache : SWCache) (pathname : String) :
    Nat → List SWResponse
  | 0 => []
  | n + 1 =>
    let o := handleApiRequest cache pathname none
    o.2 :: offlineReads o.1 pathname n

/-- The `add` of one student into `studentsCache`: the store's primary key
`id` and its unique `rollNumber` index both reject duplicates. -/
def addStudent (cache : List OfflineStudent) (s : OfflineStudent) :
    Except SyncError (List OfflineStudent) :=
  if cache.any (fun t => t.id == s.id || t.rollNumber == s.rollNumber) then
    .error .constraintError
  else
    .ok (cache ++ [s])

/-- The `students.forEach(student => store.add({...student, lastUpdated}))`
loop, run against an already-cleared store. -/
def addStudentsLoop (acc : List OfflineStudent) :
    List OfflineStudent → Except SyncError (List OfflineStudent)
  | [] => .ok acc
  | s :: ss =>
    match addStudent acc s with
    | .ok acc' => addStudentsLoop acc' ss
    | .error e => .error e

/-- `OfflineStorage.cacheStudents`: clear `studentsCache`, then add every
student stamped with `lastUpdated := Date.now()`.  A failing `add` rejects
the promise and aborts the IndexedDB transaction, rolling the whole write
(including the clear) back. -/
def cacheStudents (db : OfflineDB) (students : List OfflineStudent)
    (now : Nat) : Except SyncError OfflineDB :=
  let stamped := students.map (fun s => { s with lastUpdated := now })
  match addStudentsLoop [] stamped with
  | .ok cache => .ok { db with studentsCache := cache }
  | .error e => .error e

/-- Two students would collide in `studentsCache` (same primary key or same
unique `rollNumber`). -/
def studentConflict (a b : OfflineStudent) : Bool :=
  a.id == b.id || a.rollNumber == b.rollNumber

/-! ### Observers used to state the verified properties -/

/-- Some stored record with this id is flagged `synced`. -/
def hasSyncedId (db : OfflineDB) (rid : String) : Bool :=
  db.attendanceRecords.any (fun q => q.id == rid && q.synced)

/-- Every stored record with this id is flagged `synced`. -/
def allSyncedId (db : OfflineDB) (rid : String) : Bool :=
  db.attendanceRecords.all (fun q => !(q.id == rid) || q.synced)

/-- The fields the specification calls required on an enqueued event:
student, class, date, status and method. -/
def requiredFieldsPresent (i : RecordInput) : Bool :=
  i.studentId.isSome && i.class_.isSome && i.date.isSome &&
  i.status.isSome && i.method.isSome

/-- The (`studentId`, `date`, `period`) combination of an enqueued event. -/
def eventCombo (i : RecordInput) : Option String × Option String × Option String :=
  (i.studentId, i.date, i.period)

/-- Append an element unless already present (for counting distinct values). -/
def insertNew {α : Type} [DecidableEq α] (a : α) (l : List α) : List α :=
  if a ∈ l then l else l ++ [a]

/-- Number of distinct values in a list. -/
def distinctCount {α : Type} [DecidableEq α] (l : List α) : Nat :=
  (l.foldl (fun acc a => insertNew a acc) []).length

/-- Number of distinct (`studentId`, `date`, `period`) combinations among a
sequence of enqueued events. -/
def distinctComboCount (l : List RecordInput) : Nat :=
  distinctCount (l.map eventCombo)

/-- Number of attendance rows recording the same logical event as a
validated submission (same student, class, subject, period, date, status and
method). -/
def rowsForEvent (st : ServerState) (v : ValidAttendance) : Nat :=
  (st.attendance.filter (fun a =>
    a.studentId == v.studentId && a.class_ == v.class_ &&
    a.subject == v.subject && a.period == v.period &&
    a.date == v.date && a.status == v.status && a.method == v.method)).length

/-! ### Concrete fixtures for the counterexamples and witnesses -/

/-- A fully populated enqueue input. -/
def sampleInput : RecordInput :=
  { studentId := some "s1", teacherId := some "t1", class_ := some "5A",
    subject := none, period := some "1", status := some "present",
    method := some "manual", date := some "2026-10-01" }

/-- An enqueue input with every required field absent. -/
def blankInput : RecordInput :=
  { studentId := none, teacherId := none, class_ := none, subject := none,
    period := none, status := none, method := none, date := none }

/-- A freshly initialized client database. -/
def emptyDb : OfflineDB := { attendanceRecords := [], studentsCache := [] }

/-- The same (student, date, period) event enqueued twice, one millisecond
apart. -/
def dbAfterDuplicateEnqueue : OfflineDB :=
  enqueueAll emptyDb [(sampleInput, 1, "a", 1), (sampleInput, 2, "a", 2)]

/-- Two enqueues in the same clock millisecond (ids `offline_100_z` and
`offline_100_a`), the clock ticking to 101 between the first id draw and the
second `capturedAt` stamp; every `Date.now()` reading is nondecreasing. -/
def dbSameMillisecond : OfflineDB :=
  enqueueAll emptyDb [(sampleInput, 100, "z", 100), (sampleInput, 100, "a", 101)]

/-- One pending record, id `offline_1_a`. -/
def dbOnePending : OfflineDB := enqueueAll emptyDb [(sampleInput, 1, "a", 1)]

/-- A well-formed body element for `POST /api/attendance/mark`. -/
def sampleItem : InsertAttendance :=
  { studentId := some "s1", class_ := some "5A", subject := none,
    date := some "2026-10-01", period := some "1", status := some "present",
    method := some "manual" }

/-- `sampleItem` as zod accepts it for teacher `t1`. -/
def sampleValid : ValidAttendance :=
  { studentId := "s1", teacherId := "t1", class_ := "5A", subject := none,
    date := "2026-10-01", period := some "1", status := "present",
    method := "manual" }

/-- Server state after teacher `t1` submits `sampleItem` once. -/
def stAfterOnce : ServerState :=
  (markAttendanceRoute { attendance := [] } (some "t1") [sampleItem]
    (fun k => "u" ++ toString k) "2026-10-02" 5).1

/-- Server state after the very same submission arrives a second time. -/
def stAfterTwice : ServerState :=
  (markAttendanceRoute stAfterOnce (some "t1") [sampleItem]
    (fun k => "v" ++ toString k) "2026-10-02" 6).1

/-- An active student row. -/
def sampleStudent : Student :=
  { id := "s1", rollNumber := "r1", fullName := "Asha", class_ := "5A",
    isActive := true }

/-- A roster entry for the offline students cache. -/
def sampleOfflineStudent : OfflineStudent :=
  { id := "s1", rollNumber := "r1", fullName := "Asha", class_ := "5A",
    photoUrl := none, rfidCardId := none, lastUpdated := 0 }

/-- A fresh 2xx roster response. -/
def freshRosterResponse : SWResponse := { status := 200, body := "[roster]" }

/-! ### Order lemmas for the IndexedDB key comparison -/

theorem charsLtB_asymm : ∀ x y : List Char,
    charsLtB x y = true → charsLtB y x = false
  | [], [], h => by simp [charsLtB] at h
  | [], _ :: _, _ => rfl
  | _ :: _, [], h => by simp [charsLtB] at h
  | a :: as, b :: bs, h => by
    simp only [charsLtB] at h ⊢
    by_cases h1 : a.toNat < b.toNat
    · have h2 : ¬ b.toNat < a.toNat := by omega
      simp [h1, h2]
    · by_cases h2 : b.toNat < a.toNat
      · simp [h1, h2] at h
      · simp only [if_neg h1, if_neg h2] at h
        simp only [if_neg h2, if_neg h1]
        exact charsLtB_asymm as bs h

theorem charsLtB_negtrans : ∀ x y z : List Char,
    charsLtB x y = false → charsLtB y z = false → charsLtB x z = false
  | [], y, z, h1, h2 => by
    cases y with
    | nil =>
      cases z with
      | nil => rfl
      | cons c cs => simp [charsLtB] at h2
    | cons b bs => simp [charsLtB] at h1
  | _ :: _, _, [], _, _ => by simp [charsLtB]
  | a :: as, y, c :: cs, h1, h2 => by
    cases y with
    | nil => simp [charsLtB] at h2
    | cons b bs =>
      simp only [charsLtB] at h1 h2 ⊢
      by_cases hab : a.toNat < b.toNat
      · simp [hab] at h1
      · by_cases hbc : b.toNat < c.toNat
        · simp [hbc] at h2
        · have hac : ¬ a.toNat < c.toNat := by omega
          simp only [if_neg hab] at h1
          simp only [if_neg hbc] at h2
          simp only [if_neg hac]
          by_cases hca : c.toNat < a.toNat
          · simp [hca]
          · have hba : ¬ b.toNat < a.toNat := by omega
            have hcb : ¬ c.toNat < b.toNat := by omega
            simp only [if_neg hba] at h1
            simp only [if_neg hcb] at h2
            simp only [if_neg hca]
            exact charsLtB_negtrans as bs cs h1 h2

instance : IsTotal OfflineAttendanceRecord recIdLe where
  total a b := by
    unfold recIdLe strLtB
    cases h : charsLtB b.id.toList a.id.toList with
    | false => exact Or.inl rfl
    | true => exact Or.inr (charsLtB_asymm _ _ h)

instance : IsTrans OfflineAttendanceRecord recIdLe where
  trans a b c h1 h2 := by
    unfold recIdLe strLtB at *
    exact charsLtB_negtrans _ _ _ h2 h1

/-! ### Pending-view lemmas -/

theorem getPending_perm (db : OfflineDB) :
    (getPendingAttendanceRecords db).Perm
      (db.attendanceRecords.filter (fun r => !r.synced)) :=
  List.perm_insertionSort _ _

theorem mem_getPending (db : OfflineDB) (r : OfflineAttendanceRecord) :
    r ∈ getPendingAttendanceRecords db ↔
      r ∈ db.attendanceRecords ∧ r.synced = false := by
  unfold getPendingAttendanceRecords
  rw [(List.perm_insertionSort _ _).mem_iff, List.mem_filter]
  simp

/-! ### Lemmas about the shared mark-synced update -/

theorem setSyncedTrue_cons (rid : String) (x : OfflineAttendanceRecord)
    (xs : List OfflineAttendanceRecord) :
    setSyncedTrue rid (x :: xs) =
      (if x.id == rid then { x with synced := true } else x) ::
        setSyncedTrue rid xs := rfl

theorem setSyncedTrue_idmap (rid : String) (l : List OfflineAttendanceRecord) :
    (setSyncedTrue rid l).map (fun r => r.id) = l.map (fun r => r.id) := by
  induction l with
  | nil => rfl
  | cons x xs ih =>
    rw [setSyncedTrue_cons]
    simp only [List.map_cons]
    rw [ih]
    by_cases h : x.id == rid <;> simp [h]

theorem anyId_setSynced (rid' rid : String) (l : List OfflineAttendanceRecord) :
    (setSyncedTrue rid' l).any (fun r => r.id == rid) =
      l.any (fun r => r.id == rid) := by
  induction l with
  | nil => rfl
  | cons x xs ih =>
    rw [setSyncedTrue_cons]
    simp only [List.any_cons]
    rw [ih]
    by_cases h : x.id == rid' <;> simp [h]

theorem setSyncedTrue_no_match (rid : String) (l : List OfflineAttendanceRecord)
    (h : l.any (fun r => r.id == rid) = false) : setSyncedTrue rid l = l := by
  induction l with
  | nil => rfl
  | cons x xs ih =>
    simp only [List.any_cons, Bool.or_eq_false_iff] at h
    rw [setSyncedTrue_cons, if_neg (by simp [h.1]), ih h.2]

theorem allSynced_setSynced_self (rid : String) (l : List OfflineAttendanceRecord) :
    (setSyncedTrue rid l).all (fun q => !(q.id == rid) || q.synced) = true := by
  induction l with
  | nil => rfl
  | cons x xs ih =>
    rw [setSyncedTrue_cons]
    simp only [List.all_cons, Bool.and_eq_true]
    refine ⟨?_, ih⟩
    by_cases h : x.id == rid <;> simp [h]

theorem allSynced_setSynced_mono (rid' rid : String)
    (l : List OfflineAttendanceRecord)
    (h : l.all (fun q => !(q.id == rid) || q.synced) = true) :
    (setSyncedTrue rid' l).all (fun q => !(q.id == rid) || q.synced) = true := by
  induction l with
  | nil => rfl
  | cons x xs ih =>
    simp only [List.all_cons, Bool.and_eq_true] at h
    rw [setSyncedTrue_cons]
    simp only [List.all_cons, Bool.and_eq_true]
    refine ⟨?_, ih h.2⟩
    by_cases hx : x.id == rid'
    · rcases Bool.or_eq_true_iff.mp h.1 with h' | h'
      · simp [hx, h']
      · simp [hx, h']
    · simp only [if_neg hx]
      exact h.1

theorem hasSynced_setSynced_other (rid' rid : String)
    (l : List OfflineAttendanceRecord) (hne : rid' ≠ rid) :
    (setSyncedTrue rid' l).any (fun q => q.id == rid && q.synced) =
      l.any (fun q => q.id == rid && q.synced) := by
  induction l with
  | nil => rfl
  | cons x xs ih =>
    rw [setSyncedTrue_cons]
    simp only [List.any_cons]
    rw [ih]
    by_cases hx : x.id == rid'
    · have hxr : x.id = rid' := by simpa using hx
      have hfalse : (x.id == rid) = false := by
        simp [hxr, hne]
      simp [hx, hfalse]
    · simp [hx]

theorem markRecordSynced_found (db : OfflineDB) (rid : String)
    (h : hasRecordId db rid = true) :
    markRecordSynced db rid =
      .ok { db with attendanceRecords := setSyncedTrue rid db.attendanceRecords } := by
  unfold markRecordSynced
  rw [if_pos (by simp [h])]

theorem markRecordSynced_missing (db : OfflineDB) (rid : String)
    (h : hasRecordId db rid = false) :
    markRecordSynced db rid = .error .recordNotFound := by
  unfold markRecordSynced
  rw [if_neg (by simp [h])]

theorem swMarkRecordSynced_missing (db : OfflineDB) (rid : String)
    (h : hasRecordId db rid = false) : swMarkRecordSynced db rid = db := by
  unfold swMarkRecordSynced
  unfold hasRecordId at h
  rw [setSyncedTrue_no_match rid _ h]

/-! ### Lemmas about the `syncWithServer` loop -/

theorem syncLoop_idmap (responses : Nat → FetchResult) :
    ∀ (rs : List OfflineAttendanceRecord) (k : Nat) (db : OfflineDB),
    (syncLoop responses rs k db).db.attendanceRecords.map (fun r => r.id) =
      db.attendanceRecords.map (fun r => r.id)
  | [], _, _ => rfl
  | r :: rs, k, db => by
    cases hres : responses k with
    | ok =>
      by_cases h : hasRecordId db r.id
      · simp only [syncLoop, hres, markRecordSynced_found db r.id h]
        rw [syncLoop_idmap responses rs (k + 1) _]
        exact setSyncedTrue_idmap _ _
      · simp only [syncLoop, hres,
          markRecordSynced_missing db r.id (by simpa using h)]
        exact syncLoop_idmap responses rs (k + 1) db
    | httpError =>
      simp only [syncLoop, hres]
      exact syncLoop_idmap responses rs (k + 1) db
    | networkError =>
      simp only [syncLoop, hres]
      exact syncLoop_idmap responses rs (k + 1) db

theorem syncLoop_hasRecordId (responses : Nat → FetchResult) :
    ∀ (rs : List OfflineAttendanceRecord) (k : Nat) (db : OfflineDB)
      (rid : String),
    hasRecordId (syncLoop responses rs k db).db rid = hasRecordId db rid
  | [], _, _, _ => rfl
  | r :: rs, k, db, rid => by
    cases hres : responses k with
    | ok =>
      by_cases h : hasRecordId db r.id
      · simp only [syncLoop, hres, markRecordSynced_found db r.id h]
        rw [syncLoop_hasRecordId responses rs (k + 1) _ rid]
        exact anyId_setSynced _ _ _
      · simp only [syncLoop, hres,
          markRecordSynced_missing db r.id (by simpa using h)]
        exact syncLoop_hasRecordId responses rs (k + 1) db rid
    | httpError =>
      simp only [syncLoop, hres]
      exact syncLoop_hasRecordId responses rs (k + 1) db rid
    | networkError =>
      simp only [syncLoop, hres]
      exact syncLoop_hasRecordId responses rs (k + 1) db rid

theorem syncLoop_allFail :
    ∀ (rs : List OfflineAttendanceRecord) (k : Nat) (db : OfflineDB),
    (syncLoop (fun _ => .networkError) rs k db).db = db ∧
    (syncLoop (fun _ => .networkError) rs k db).success = 0 ∧
    (syncLoop (fun _ => .networkError) rs k db).failed = rs.length
  | [], _, _ => ⟨rfl, rfl, rfl⟩
  | r :: rs, k, db => by
    have ih := syncLoop_allFail rs (k + 1) db
    simp only [syncLoop, List.length_cons]
    exact ⟨ih.1, ih.2.1, by rw [ih.2.2]⟩

theorem syncLoop_allSynced_mono (responses : Nat → FetchResult) :
    ∀ (rs : List OfflineAttendanceRecord) (k : Nat) (db : OfflineDB)
      (rid : String),
    allSyncedId db rid = true →
    allSyncedId (syncLoop responses rs k db).db rid = true
  | [], _, _, _, h => h
  | r :: rs, k, db, rid, h => by
    cases hres : responses k with
    | ok =>
      by_cases hr : hasRecordId db r.id
      · simp only [syncLoop, hres, markRecordSynced_found db r.id hr]
        exact syncLoop_allSynced_mono responses rs (k + 1) _ rid
          (allSynced_setSynced_mono _ _ _ h)
      · simp only [syncLoop, hres,
          markRecordSynced_missing db r.id (by simpa using hr)]
        exact syncLoop_allSynced_mono responses rs (k + 1) db rid h
    | httpError =>
      simp only [syncLoop, hres]
      exact syncLoop_allSynced_mono responses rs (k + 1) db rid h
    | networkError =>
      simp only [syncLoop, hres]
      exact syncLoop_allSynced_mono responses rs (k + 1) db rid h

theorem syncLoop_marks :
    ∀ (rs : List OfflineAttendanceRecord) (k : Nat) (db : OfflineDB)
      (r : OfflineAttendanceRecord),
    r ∈ rs → hasRecordId db r.id = true →
    allSyncedId (syncLoop (fun _ => .ok) rs k db).db r.id = true
  | [], _, _, _, hmem, _ => absurd hmem (List.not_mem_nil _)
  | x :: rs, k, db, r, hmem, hrec => by
    by_cases hx : hasRecordId db x.id
    · simp only [syncLoop, markRecordSynced_found db x.id hx]
      rcases List.mem_cons.mp hmem with heq | htail
      · subst heq
        exact syncLoop_allSynced_mono _ rs (k + 1) _ r.id
          (allSynced_setSynced_self _ _)
      · refine syncLoop_marks rs (k + 1) _ r htail ?_
        show (setSyncedTrue x.id db.attendanceRecords).any
          (fun q => q.id == r.id) = true
        rw [anyId_setSynced]
        exact hrec
    · simp only [syncLoop, markRecordSynced_missing db x.id (by simpa using hx)]
      rcases List.mem_cons.mp hmem with heq | htail
      · subst heq
        exact absurd hrec (by simp [hx])
      · exact syncLoop_marks rs (k + 1) db r htail hrec

theorem syncLoop_delivery (responses : Nat → FetchResult) :
    ∀ (rs : List OfflineAttendanceRecord) (k : Nat) (db : OfflineDB)
      (rid : String),
    hasSyncedId db rid = false →
    hasSyncedId (syncLoop responses rs k db).db rid = true →
    ∃ r, r ∈ rs ∧ r.id = rid ∧
      (Payload.apiProjection (toApiRecord r), FetchResult.ok) ∈
        (syncLoop responses rs k db).sent
  | [], _, _, _, h0, h1 => by
    simp only [syncLoop] at h1
    exact absurd h1 (by simp [h0])
  | x :: rs, k, db, rid, h0, h1 => by
    cases hres : responses k with
    | ok =>
      by_cases hid : x.id = rid
      · by_cases hx : hasRecordId db x.id
        · refine ⟨x, List.mem_cons_self _ _, hid, ?_⟩
          simp only [syncLoop, hres, markRecordSynced_found db x.id hx]
          exact List.mem_cons_self _ _
        · refine ⟨x, List.mem_cons_self _ _, hid, ?_⟩
          simp only [syncLoop, hres,
            markRecordSynced_missing db x.id (by simpa using hx)]
          exact List.mem_cons_self _ _
      · by_cases hx : hasRecordId db x.id
        · simp only [syncLoop, hres, markRecordSynced_found db x.id hx] at h1 ⊢
          have h0' : hasSyncedId
              { db with attendanceRecords :=
                  setSyncedTrue x.id db.attendanceRecords } rid = false := by
            show (setSyncedTrue x.id db.attendanceRecords).any
              (fun q => q.id == rid && q.synced) = false
            rw [hasSynced_setSynced_other x.id rid _ hid]
            exact h0
          obtain ⟨r, hmem, hrid, hsent⟩ :=
            syncLoop_delivery responses rs (k + 1) _ rid h0' h1
          exact ⟨r, List.mem_cons_of_mem _ hmem, hrid,
            List.mem_cons_of_mem _ hsent⟩
        · simp only [syncLoop, hres,
            markRecordSynced_missing db x.id (by simpa using hx)] at h1 ⊢
          obtain ⟨r, hmem, hrid, hsent⟩ :=
            syncLoop_delivery responses rs (k + 1) db rid h0 h1
          exact ⟨r, List.mem_cons_of_mem _ hmem, hrid,
            List.mem_cons_of_mem _ hsent⟩
    | httpError =>
      simp only [syncLoop, hres] at h1 ⊢
      obtain ⟨r, hmem, hrid, hsent⟩ :=
        syncLoop_delivery responses rs (k + 1) db rid h0 h1
      exact ⟨r, List.mem_cons_of_mem _ hmem, hrid,
        List.mem_cons_of_mem _ hsent⟩
    | networkError =>
      simp only [syncLoop, hres] at h1 ⊢
      obtain ⟨r, hmem, hrid, hsent⟩ :=
        syncLoop_delivery responses rs (k + 1) db rid h0 h1
      exact ⟨r, List.mem_cons_of_mem _ hmem, hrid,
        List.mem_cons_of_mem _ hsent⟩

theorem syncLoop_eq_swSyncLoop (responses : Nat → FetchResult) :
    ∀ (rs : List OfflineAttendanceRecord) (k : Nat) (db : OfflineDB),
    (syncLoop responses rs k db).db = (swSyncLoop responses rs k db).1 ∧
    (syncLoop responses rs k db).sent.length =
      (swSyncLoop responses rs k db).2.length
  | [], _, _ => ⟨rfl, rfl⟩
  | r :: rs, k, db => by
    cases hres : responses k with
    | ok =>
      by_cases h : hasRecordId db r.id
      · have hmark : swMarkRecordSynced db r.id =
            { db with attendanceRecords :=
                setSyncedTrue r.id db.attendanceRecords } := rfl
        simp only [syncLoop, swSyncLoop, hres, markRecordSynced_found db r.id h,
          hmark, List.length_cons]
        have ih := syncLoop_eq_swSyncLoop responses rs (k + 1)
          { db with attendanceRecords := setSyncedTrue r.id db.attendanceRecords }
        exact ⟨ih.1, by rw [ih.2]⟩
      · have hmark : swMarkRecordSynced db r.id = db :=
          swMarkRecordSynced_missing db r.id (by simpa using h)
        simp only [syncLoop, swSyncLoop, hres,
          markRecordSynced_missing db r.id (by simpa using h), hmark,
          List.length_cons]
        have ih := syncLoop_eq_swSyncLoop responses rs (k + 1) db
        exact ⟨ih.1, by rw [ih.2]⟩
    | httpError =>
      simp only [syncLoop, swSyncLoop, hres, List.length_cons]
      have ih := syncLoop_eq_swSyncLoop responses rs (k + 1) db
      exact ⟨ih.1, by rw [ih.2]⟩
    | networkError =>
      simp only [syncLoop, swSyncLoop, hres, List.length_cons]
      have ih := syncLoop_eq_swSyncLoop responses rs (k + 1) db
      exact ⟨ih.1, by rw [ih.2]⟩

/-! ### Lemmas about the server routes and caches -/

theorem getPending_append_unsynced (db : OfflineDB)
    (rec : OfflineAttendanceRecord) (h : rec.synced = false) :
    (getPendingAttendanceRecords
        { db with attendanceRecords := db.attendanceRecords ++ [rec] }).length =
      (getPendingAttendanceRecords db).length + 1 := by
  unfold getPendingAttendanceRecords
  rw [(List.perm_insertionSort _ _).length_eq,
    (List.perm_insertionSort _ _).length_eq]
  simp [List.filter_append, h]

theorem markAttendanceRoute_single (st : ServerState) (teacherId : String)
    (item : InsertAttendance) (uuids : Nat → String) (today : String)
    (now : Nat) (v : ValidAttendance)
    (hparse : parseInsertAttendance teacherId today item = some v)
    (hfresh : st.attendance.any (fun a => a.id == uuids 0) = false) :
    markAttendanceRoute st (some teacherId) [item] uuids today now =
      ({ attendance := st.attendance ++ [attendanceRow (uuids 0) v now] },
       { status := 201, body := some [attendanceRow (uuids 0) v now] }) := by
  simp only [markAttendanceRoute, markAttendanceLoop, hparse, createAttendance,
    mapSet]
  rw [if_neg (by simpa [attendanceRow] using hfresh)]

theorem find?_append_none {α : Type} (f : α → Bool) :
    ∀ (l1 l2 : List α), l1.find? f = none →
    (l1 ++ l2).find? f = l2.find? f
  | [], _, _ => rfl
  | a :: l1, l2, h => by
    by_cases ha : f a
    · rw [List.find?_cons_of_pos _ ha] at h
      exact absurd h (by simp)
    · rw [List.find?_cons_of_neg _ (by simpa using ha)] at h
      rw [List.cons_append, List.find?_cons_of_neg _ (by simpa using ha)]
      exact find?_append_none f l1 l2 h

theorem findReplaced (p : String) (resp : SWResponse) :
    ∀ cache : SWCache, cache.any (fun e => e.1 == p) = true →
    (cache.map (fun e => if e.1 == p then (p, resp) else e)).find?
        (fun e => e.1 == p) = some (p, resp)
  | [], h => by simp at h
  | e :: rest, h => by
    by_cases he : e.1 == p
    · simp only [List.map_cons, if_pos he]
      rw [List.find?_cons_of_pos _ (by simp)]
    · simp only [List.any_cons, he, Bool.false_or] at h
      simp only [List.map_cons, if_neg he]
      rw [List.find?_cons_of_neg _ (by simpa using he)]
      exact findReplaced p resp rest h

theorem cacheMatch_cachePut (cache : SWCache) (p : String) (resp : SWResponse) :
    cacheMatch (cachePut cache p resp) p = some resp := by
  unfold cacheMatch cachePut
  by_cases h : cache.any (fun e => e.1 == p)
  · rw [if_pos (by simp [h]), findReplaced p resp cache h]
  · rw [if_neg (by simp [h])]
    have hnone : cache.find? (fun e => e.1 == p) = none := by
      rw [List.find?_eq_none]
      intro x hx hpx
      have : cache.any (fun e => e.1 == p) = true :=
        List.any_eq_true.mpr ⟨x, hx, hpx⟩
      simp [this] at h
    rw [find?_append_none _ cache _ hnone]
    rw [List.find?_cons_of_pos _ (by simp)]

theorem offlineReads_cached (p : String) (resp : SWResponse) (cache : SWCache)
    (hmatch : cacheMatch cache p = some resp) :
    ∀ n, offlineReads cache p n = List.replicate n resp
  | 0 => rfl
  | n + 1 => by
    simp only [offlineReads, handleApiRequest, hmatch, List.replicate]
    exact congrArg (resp :: ·) (offlineReads_cached p resp cache hmatch n)

theorem addStudentsLoop_ok :
    ∀ (ss acc : List OfflineStudent),
    (∀ s ∈ ss,
      acc.any (fun t => t.id == s.id || t.rollNumber == s.rollNumber) = false) →
    List.Pairwise (fun a b => studentConflict a b = false) ss →
    addStudentsLoop acc ss = .ok (acc ++ ss)
  | [], acc, _, _ => by simp [addStudentsLoop]
  | s :: ss, acc, hacc, hpw => by
    have hs := hacc s (List.mem_cons_self _ _)
    have hadd : addStudent acc s = .ok (acc ++ [s]) := by
      unfold addStudent
      rw [if_neg (by simp [hs])]
    simp only [addStudentsLoop, hadd]
    rw [addStudentsLoop_ok ss (acc ++ [s]) ?_ (List.pairwise_cons.mp hpw).2]
    · simp
    · intro t ht
      rw [List.any_append]
      have h1 := hacc t (List.mem_cons_of_mem _ ht)
      have h2 : studentConflict s t = false := (List.pairwise_cons.mp hpw).1 t ht
      simp only [h1, Bool.false_or, List.any_cons, List.any_nil, Bool.or_false]
      simpa [studentConflict] using h2

theorem cacheStudents_wholesale (db : OfflineDB)
    (students : List OfflineStudent) (now : Nat)
    (h : List.Pairwise (fun a b => studentConflict a b = false) students) :
    cacheStudents db students now =
      .ok { db with studentsCache :=
              students.map (fun s => { s with lastUpdated := now }) } := by
  have hloop : addStudentsLoop []
      (students.map (fun s => { s with lastUpdated := now })) =
      .ok ([] ++ students.map (fun s => { s with lastUpdated := now })) := by
    refine addStudentsLoop_ok _ [] (by simp) ?_
    rw [List.pairwise_map]
    simpa [studentConflict] using h
  unfold cacheStudents
  simp only [hloop, List.nil_append]

/-! ### Claim C1 — duplicate enqueues -/

/-- Claim C1 fails on the code: enqueueing the same (`studentId`, `date`,
`period`) event twice stores two unsynced records, because
`storeAttendanceRecord` always `add`s under a fresh generated id and never
looks the combination up, so the pending count (2) exceeds the number of
distinct combinations enqueued (1). -/
theorem C1_counterexample :
    ¬ ((getPendingAttendanceRecords dbAfterDuplicateEnqueue).length ≤
        distinctComboCount [sampleInput, sampleInput]) := by decide

/-- Claim C1 (amended): `storeAttendanceRecord` appends a fresh record on
every accepted enqueue — a duplicate (`studentId`, `date`, `period`)
combination appends rather than overwrites, growing the pending view by
exactly one and retaining every previously pending record. -/
theorem C1_enqueue_appends (db : OfflineDB) (input : RecordInput)
    (idTime : Nat) (rand : String) (now : Nat)
    (hfresh : hasRecordId db (generateId idTime rand) = false) :
    ∃ db', storeAttendanceRecord db input idTime rand now =
        .ok (db', generateId idTime rand) ∧
      (getPendingAttendanceRecords db').length =
        (getPendingAttendanceRecords db).length + 1 ∧
      ∀ r ∈ getPendingAttendanceRecords db,
        r ∈ getPendingAttendanceRecords db' := by
  refine ⟨{ db with attendanceRecords :=
      db.attendanceRecords ++ [mkOfflineRecord input idTime rand now] },
    ?_, ?_, ?_⟩
  · unfold storeAttendanceRecord
    rw [if_neg (by simpa [mkOfflineRecord] using hfresh)]
    rfl
  · exact getPending_append_unsynced db _ rfl
  · intro r hr
    rw [mem_getPending] at hr ⊢
    exact ⟨List.mem_append_left _ hr.1, hr.2⟩

/-- Witness for `C1_enqueue_appends` at a fresh store and a concrete
event. -/
theorem C1_enqueue_appends_witness :
    hasRecordId emptyDb (generateId 1 "a") = false ∧
    ∃ db', storeAttendanceRecord emptyDb sampleInput 1 "a" 1 =
        .ok (db', generateId 1 "a") ∧
      (getPendingAttendanceRecords db').length =
        (getPendingAttendanceRecords emptyDb).length + 1 ∧
      ∀ r ∈ getPendingAttendanceRecords emptyDb,
        r ∈ getPendingAttendanceRecords db' :=
  ⟨by decide, C1_enqueue_appends emptyDb sampleInput 1 "a" 1 (by decide)⟩

/-! ### Claim C2 — idempotency token in the submitted payload -/

/-- Claim C2 fails on the code: a record reaches the synced state while
every submission the pass made was the id-less `apiRecord` projection — no
payload carries the record's `localId`. -/
theorem C2_counterexample :
    hasSyncedId (syncWithServer dbOnePending (fun _ => .ok)).db
      "offline_1_a" = true ∧
    (syncWithServer dbOnePending (fun _ => .ok)).sent ≠ [] ∧
    ((syncWithServer dbOnePending (fun _ => .ok)).sent.all
      (fun p => !payloadCarriesId p.1 "offline_1_a")) = true := by decide

/-- Claim C2 (amended): the payload `syncWithServer` submits is the
projection `{studentId, class, subject, period, status, method, date}`
without the client-generated id; at-least-once delivery holds only for that
projection — any record newly reaching the synced state had its projection
submitted and answered with a 2xx response. -/
theorem C2_projection_delivery (db : OfflineDB)
    (responses : Nat → FetchResult) (rid : String)
    (h0 : hasSyncedId db rid = false)
    (h1 : hasSyncedId (syncWithServer db responses).db rid = true) :
    ∃ r, r ∈ getPendingAttendanceRecords db ∧ r.id = rid ∧
      (Payload.apiProjection (toApiRecord r), FetchResult.ok) ∈
        (syncWithServer db responses).sent :=
  syncLoop_delivery responses (getPendingAttendanceRecords db) 0 db rid h0 h1

/-- Witness for `C2_projection_delivery` on a one-record store with an
all-2xx server. -/
theorem C2_projection_delivery_witness :
    hasSyncedId dbOnePending "offline_1_a" = false ∧
    ∃ r, r ∈ getPendingAttendanceRecords dbOnePending ∧
      r.id = "offline_1_a" ∧
      (Payload.apiProjection (toApiRecord r), FetchResult.ok) ∈
        (syncWithServer dbOnePending (fun _ => .ok)).sent :=
  ⟨by decide, C2_projection_delivery dbOnePending (fun _ => .ok)
    "offline_1_a" (by decide) (by decide)⟩

/-! ### Claim C3 — server-side idempotency -/

/-- Claim C3 fails on the code: submitting the identical attendance record
twice through `POST /api/attendance/mark` leaves two rows for the one
logical event, because `createAttendance` unconditionally inserts under a
fresh server UUID. -/
theorem C3_counterexample :
    ¬ (rowsForEvent stAfterTwice sampleValid ≤ 1) := by decide

/-- Claim C3 (amended): the bulk mark endpoint is not idempotent — every
authenticated, validation-passing submission of an item appends a fresh
attendance row (under the supplied fresh UUID) and answers 201, so
resubmitting the same item grows the table by one row per call. -/
theorem C3_mark_not_idempotent (st : ServerState) (teacherId : String)
    (item : InsertAttendance) (uuids : Nat → String) (today : String)
    (now : Nat) (v : ValidAttendance)
    (hparse : parseInsertAttendance teacherId today item = some v)
    (hfresh : st.attendance.any (fun a => a.id == uuids 0) = false) :
    (markAttendanceRoute st (some teacherId) [item] uuids today now).1.attendance
      = st.attendance ++ [attendanceRow (uuids 0) v now] ∧
    (markAttendanceRoute st (some teacherId) [item] uuids today now).2.status
      = 201 := by
  rw [markAttendanceRoute_single st teacherId item uuids today now v hparse hfresh]
  exact ⟨rfl, rfl⟩

/-- Witness for `C3_mark_not_idempotent` on an empty ledger. -/
theorem C3_mark_not_idempotent_witness :
    parseInsertAttendance "t1" "2026-10-02" sampleItem = some sampleValid ∧
    (({ attendance := [] } : ServerState).attendance.any
      (fun a => a.id == "u0")) = false ∧
    ((markAttendanceRoute { attendance := [] } (some "t1") [sampleItem]
        (fun _ => "u0") "2026-10-02" 5).1.attendance
      = [] ++ [attendanceRow "u0" sampleValid 5] ∧
    (markAttendanceRoute { attendance := [] } (some "t1") [sampleItem]
        (fun _ => "u0") "2026-10-02" 5).2.status = 201) :=
  ⟨by decide, by decide,
    C3_mark_not_idempotent { attendance := [] } "t1" sampleItem
      (fun _ => "u0") "2026-10-02" 5 sampleValid (by decide) (by decide)⟩

/-! ### Claim C4 — retention after acknowledgement -/

/-- Claim C4 fails on the code: a record whose submission the server
acknowledged (success counter 1) is still present in local storage — it is
marked synced in place, never deleted. -/
theorem C4_counterexample :
    (syncWithServer dbOnePending (fun _ => .ok)).success = 1 ∧
    hasRecordId (syncWithServer dbOnePending (fun _ => .ok)).db
      "offline_1_a" = true ∧
    hasSyncedId (syncWithServer dbOnePending (fun _ => .ok)).db
      "offline_1_a" = true := by decide

/-- Claim C4 (amended): an acknowledged record is marked `synced := true` in
place — the reconciliation pass never deletes anything (the stored id
multiset is unchanged), and the acknowledged record disappears from the
pending view while remaining in storage. -/
theorem C4_ack_marks_in_place (db : OfflineDB)
    (r : OfflineAttendanceRecord)
    (hmem : r ∈ getPendingAttendanceRecords db) :
    (syncWithServer db (fun _ => .ok)).db.attendanceRecords.map
        (fun q => q.id) = db.attendanceRecords.map (fun q => q.id) ∧
    allSyncedId (syncWithServer db (fun _ => .ok)).db r.id = true ∧
    ((getPendingAttendanceRecords (syncWithServer db (fun _ => .ok)).db).all
      (fun q => !(q.id == r.id))) = true := by
  have hrec : hasRecordId db r.id = true := by
    rw [mem_getPending] at hmem
    exact List.any_eq_true.mpr ⟨r, hmem.1, by simp⟩
  have hall := syncLoop_marks (getPendingAttendanceRecords db) 0 db r hmem hrec
  refine ⟨syncLoop_idmap _ _ 0 db, hall, ?_⟩
  rw [List.all_eq_true]
  intro q hq
  rw [mem_getPending] at hq
  have hq' := List.all_eq_true.mp hall q hq.1
  rcases Bool.or_eq_true_iff.mp hq' with h' | h'
  · simpa using h'
  · rw [hq.2] at h'
    cases h'

/-- Witness for `C4_ack_marks_in_place` on a one-record store. -/
theorem C4_ack_marks_in_place_witness :
    (mkOfflineRecord sampleInput 1 "a" 1) ∈
      getPendingAttendanceRecords dbOnePending ∧
    ((syncWithServer dbOnePending (fun _ => .ok)).db.attendanceRecords.map
        (fun q => q.id) =
      dbOnePending.attendanceRecords.map (fun q => q.id) ∧
    allSyncedId (syncWithServer dbOnePending (fun _ => .ok)).db
      (mkOfflineRecord sampleInput 1 "a" 1).id = true ∧
    ((getPendingAttendanceRecords
        (syncWithServer dbOnePending (fun _ => .ok)).db).all
      (fun q => !(q.id == (mkOfflineRecord sampleInput 1 "a" 1).id))) = true) :=
  ⟨by decide, C4_ack_marks_in_place dbOnePending _ (by decide)⟩

/-! ### Claim C5 — attempts counter and retry ceiling -/

/-- Claim C5 fails on the code: after 11 consecutive transport failures the
record is still returned for the next automatic batch — there is no
`attempts` counter, no `failed` state and no ceiling; the store is bit-for-bit
unchanged. -/
theorem C5_counterexample :
    iterateSyncAllFail 11 dbOnePending = dbOnePending ∧
    getPendingAttendanceRecords (iterateSyncAllFail 11 dbOnePending) ≠ [] := by
  decide

/-- Claim C5 (amended): a failed submission changes nothing — the store is
untouched (so no attempts are counted and nothing ever moves to a failed
state), zero successes are reported, every pending record is counted failed,
and the batch for the next pass is identical. -/
theorem C5_failures_change_nothing (db : OfflineDB) :
    (syncWithServer db (fun _ => .networkError)).db = db ∧
    (syncWithServer db (fun _ => .networkError)).success = 0 ∧
    (syncWithServer db (fun _ => .networkError)).failed =
      (getPendingAttendanceRecords db).length ∧
    getPendingAttendanceRecords
        (syncWithServer db (fun _ => .networkError)).db =
      getPendingAttendanceRecords db := by
  have h := syncLoop_allFail (getPendingAttendanceRecords db) 0 db
  refine ⟨h.1, h.2.1, h.2.2, ?_⟩
  rw [show (syncWithServer db (fun _ => .networkError)).db = db from h.1]

/-! ### Claim C6 — validation at enqueue -/

/-- Claim C6 fails on the code: an event with every required field absent is
accepted and stored, with no validation error raised. -/
theorem C6_counterexample :
    requiredFieldsPresent blankInput = false ∧
    storeAttendanceRecord emptyDb blankInput 1 "a" 1 =
      .ok ({ attendanceRecords := [mkOfflineRecord blankInput 1 "a" 1],
             studentsCache := [] }, "offline_1_a") :=
  ⟨rfl, rfl⟩

/-- Claim C6 (amended): `storeAttendanceRecord` performs no field
validation — even an event missing required fields is accepted and appended
whenever the generated id is fresh; the only failure mode is the store
itself (uninitialized database, key collision). -/
theorem C6_no_validation (db : OfflineDB) (input : RecordInput)
    (idTime : Nat) (rand : String) (now : Nat)
    (hmissing : requiredFieldsPresent input = false)
    (hfresh : hasRecordId db (generateId idTime rand) = false) :
    storeAttendanceRecord db input idTime rand now =
      .ok ({ db with attendanceRecords :=
               db.attendanceRecords ++ [mkOfflineRecord input idTime rand now] },
           generateId idTime rand) := by
  unfold storeAttendanceRecord
  rw [if_neg (by simpa [mkOfflineRecord] using hfresh)]
  rfl

/-- Witness for `C6_no_validation`: the all-absent event on a fresh store. -/
theorem C6_no_validation_witness :
    requiredFieldsPresent blankInput = false ∧
    hasRecordId emptyDb (generateId 1 "a") = false ∧
    storeAttendanceRecord emptyDb blankInput 1 "a" 1 =
      .ok ({ emptyDb with attendanceRecords :=
               emptyDb.attendanceRecords ++ [mkOfflineRecord blankInput 1 "a" 1] },
           generateId 1 "a") :=
  ⟨by decide, by decide, C6_no_validation emptyDb blankInput 1 "a" 1
    (by decide) (by decide)⟩

/-! ### Claim C7 — authentication on the two endpoints -/

/-- Claim C7 fails on the code: `GET /api/students` performs no session
check — an unauthenticated request is served the full roster with 200
rather than rejected. -/
theorem C7_counterexample :
    (getStudentsRoute [sampleStudent] none none none).status = 200 ∧
    (getStudentsRoute [sampleStudent] none none none).body =
      some [sampleStudent] := by decide

/-- Claim C7 (amended): only `POST /api/attendance/mark` requires a session
— an unauthenticated mark request is rejected with 401 leaving the ledger
untouched, while `GET /api/students` ignores the session entirely and
answers 200 for every request. -/
theorem C7_auth_asymmetry (st : ServerState) (body : List InsertAttendance)
    (uuids : Nat → String) (today : String) (now : Nat)
    (students : List Student) (auth : Option String)
    (classFilter search : Option String) :
    markAttendanceRoute st none body uuids today now =
      (st, { status := 401, body := none }) ∧
    getStudentsRoute students auth classFilter search =
      getStudentsRoute students none classFilter search ∧
    (getStudentsRoute students auth classFilter search).status = 200 :=
  ⟨rfl, rfl, rfl⟩

/-! ### Claim C8 — network-first Reference Cache -/

/-- Claim C8: the Reference Cache is network-first.  A 2xx fetch of an
offline-enabled API overwrites the cached snapshot and is served fresh; once
a snapshot is cached, any number of subsequent reads whose fetches throw are
served the stale snapshot (never an error); with no snapshot, a failed fetch
surfaces the fabricated 503 offline reply; and `cacheStudents` replaces the
roster cache wholesale. -/
theorem C8_network_first (cache : SWCache) (p : String) (resp : SWResponse)
    (n : Nat) (db : OfflineDB) (students : List OfflineStudent) (now : Nat)
    (hok : respOk resp = true) (hapi : isOfflineApi p = true)
    (hmiss : cacheMatch cache p = none)
    (hdist : List.Pairwise (fun a b => studentConflict a b = false) students) :
    handleApiRequest cache p (some resp) = (cachePut cache p resp, resp) ∧
    handleApiRequest cache p none = (cache, offlineResponse) ∧
    offlineReads (cachePut cache p resp) p n = List.replicate n resp ∧
    cacheStudents db students now =
      .ok { db with studentsCache :=
              students.map (fun s => { s with lastUpdated := now }) } := by
  refine ⟨?_, ?_, offlineReads_cached p resp _ (cacheMatch_cachePut cache p resp) n,
    cacheStudents_wholesale db students now hdist⟩
  · simp only [handleApiRequest]
    rw [if_pos (by simp [hok, hapi])]
  · simp only [handleApiRequest, hmiss]

/-- Witness for `C8_network_first`: the students roster on an empty cache,
three offline reads after one successful fetch. -/
theorem C8_network_first_witness :
    respOk freshRosterResponse = true ∧
    isOfflineApi "/api/students" = true ∧
    cacheMatch [] "/api/students" = none ∧
    (handleApiRequest [] "/api/students" (some freshRosterResponse) =
        (cachePut [] "/api/students" freshRosterResponse, freshRosterResponse) ∧
      handleApiRequest [] "/api/students" none = ([], offlineResponse) ∧
      offlineReads (cachePut [] "/api/students" freshRosterResponse)
          "/api/students" 3 = List.replicate 3 freshRosterResponse ∧
      cacheStudents emptyDb [sampleOfflineStudent] 7 =
        .ok { emptyDb with studentsCache :=
                [sampleOfflineStudent].map (fun s => { s with lastUpdated := 7 }) }) :=
  ⟨by decide, by decide, rfl,
    C8_network_first [] "/api/students" freshRosterResponse 3 emptyDb
      [sampleOfflineStudent] 7 (by decide) (by decide) rfl (by simp)⟩

/-! ### Claim C9 — ordering of the pending view -/

/-- Claim C9 fails on the code: the pending view comes back in IndexedDB
primary-key order (the generated id string), not by `capturedAt` — two
enqueues in the same clock millisecond, with the clock ticking between the
first enqueue's id draw and its `timestamp` stamp, are returned with
timestamps 101 then 100. -/
theorem C9_counterexample :
    ¬ List.Pairwise (fun a b => a.timestamp ≤ b.timestamp)
        (getPendingAttendanceRecords dbSameMillisecond) := by decide

/-- Claim C9 (amended): `getPendingAttendanceRecords` returns exactly the
unsynced records, sorted by the code-unit lexicographic order of their ids
(the IndexedDB primary-key order) — not by `capturedAt`. -/
theorem C9_pending_sorted_by_id (db : OfflineDB) :
    List.Sorted recIdLe (getPendingAttendanceRecords db) ∧
    (getPendingAttendanceRecords db).Perm
      (db.attendanceRecords.filter (fun r => !r.synced)) :=
  ⟨List.sorted_insertionSort recIdLe _, List.perm_insertionSort recIdLe _⟩

/-! ### Claim C10 — the two sync implementations -/

/-- Claim C10 fails on the code: for the very same store and server
responses the two implementations submit different payloads — the service
worker's carries the record's id (and timestamp and synced flag), the
client library's does not — and their `markRecordSynced` differ on a
missing record (rejection versus success). -/
theorem C10_counterexample :
    (syncWithServer dbOnePending (fun _ => .ok)).sent ≠
      (syncAttendanceData dbOnePending (fun _ => .ok)).sent ∧
    ((syncAttendanceData dbOnePending (fun _ => .ok)).sent.any
      (fun p => payloadCarriesId p.1 "offline_1_a")) = true ∧
    ((syncWithServer dbOnePending (fun _ => .ok)).sent.all
      (fun p => !payloadCarriesId p.1 "offline_1_a")) = true ∧
    markRecordSynced emptyDb "missing" = .error .recordNotFound ∧
    swMarkRecordSynced emptyDb "missing" = emptyDb :=
  ⟨by decide, by decide, by decide, rfl, rfl⟩

/-- Claim C10 (amended): the two implementations are equivalent only in
which records they mark synced — for every store and every response
sequence they produce identical resulting stores and make the same number
of submission attempts — while the payloads and the missing-record handling
differ (see the counterexample). -/
theorem C10_same_marking_different_payloads (db : OfflineDB)
    (responses : Nat → FetchResult) :
    (syncWithServer db responses).db = (syncAttendanceData db responses).db ∧
    (syncWithServer db responses).sent.length =
      (syncAttendanceData db responses).sent.length :=
  ⟨(syncLoop_eq_swSyncLoop responses (getPendingAttendanceRecords db) 0 db).1,
   (syncLoop_eq_swSyncLoop responses (getPendingAttendanceRecords db) 0 db).2⟩

end RularSchoolPortal
